import Mathlib

/-!
# Formal model of the `glax_war` turn-resolution engine

A shallow embedding, in Lean 4, of the parts of `turn_engine.py` and
`game_engine.py` that the specification's claims are about.

Modelling conventions:
* Python `dict`s become association lists (`List (Id × α)`); Python dicts
  preserve insertion order, so does an association list.  Key update keeps
  the key's position, fresh keys are appended — exactly the `dict` semantics.
* Python `float` arithmetic is modelled by exact rationals (`ℚ`); the single
  irrational operation of the engine, `x ** 1.1` in the capture-probability
  formula, is modelled exactly over `ℝ` with real exponentiation.
* Python `int(x)` (truncation toward zero) is `pyInt`.
* `random.random()` draws are passed in explicitly as rational parameters.
* Real wall-clock reads (`time.time()`) are modelled by a `now` field of the
  state, fixed for the duration of a call.
* Events keep their turn, type tag and faction; the human-readable Chinese
  description strings and the structured `data` payloads are presentational
  and are elided.
-/

namespace GlaxWar

abbrev Id := String

/-- `game_engine.BuildingType`. -/
inductive BuildingType where
  | energyPlant
  | miningStation
  | researchLab
  | shipyard
  | defenseStation
deriving DecidableEq, Repr

/-- `game_engine.ShipType`. -/
inductive ShipType where
  | scout
  | corvette
  | destroyer
  | cruiser
  | battleship
deriving DecidableEq, Repr

/-- The `ship_power` table inside `Fleet.get_strength`. -/
def shipPower : ShipType → ℤ
  | .scout => 1
  | .corvette => 3
  | .destroyer => 8
  | .cruiser => 20
  | .battleship => 50

/-- `game_engine.DiplomacyStatus`. -/
inductive DiplomacyStatus where
  | neutral
  | friendly
  | allied
  | hostile
  | war
deriving DecidableEq, Repr

/-- Association-list lookup, mirroring Python `d.get(k)` / `d[k]`. -/
def alookup {α : Type} (l : List (Id × α)) (k : Id) : Option α :=
  (l.find? (fun p => p.1 = k)).map (·.2)

/-- Association-list update, mirroring Python `d[k] = v`: an existing key
keeps its position, a fresh key is appended. -/
def aset {α : Type} (l : List (Id × α)) (k : Id) (v : α) : List (Id × α) :=
  if l.any (fun p => p.1 = k) then
    l.map (fun p => if p.1 = k then (k, v) else p)
  else
    l ++ [(k, v)]

/-- Association-list removal, mirroring Python `d.pop(k, None)`. -/
def aremove {α : Type} (l : List (Id × α)) (k : Id) : List (Id × α) :=
  l.filter (fun p => p.1 ≠ k)

/-- Python `int(x)` on a float: truncation toward zero. -/
def pyInt (x : ℚ) : ℤ := if 0 ≤ x then ⌊x⌋ else ⌈x⌉

/-- `game_engine.Fleet` (the fields the turn engine reads). -/
structure Fleet where
  id : Id
  owner : Id
  ships : List (ShipType × ℤ)
  position : Id
  destination : Option Id := none
  travelProgress : ℚ := 0
  proficiency : ℚ := 0
deriving DecidableEq, Repr

/-- `Fleet.get_strength`: Σ ship_power[type] × count. -/
def Fleet.getStrength (f : Fleet) : ℤ :=
  f.ships.foldl (fun acc p => acc + shipPower p.1 * p.2) 0

/-- `game_engine.Planet` (the fields the turn engine reads). -/
structure Planet where
  id : Id
  owner : Option Id := none
  population : ℤ := 0
  buildings : List BuildingType := []
  captureProtectionUntilTurn : ℤ := 0
deriving DecidableEq, Repr

/-- `game_engine.Faction` (the fields the turn engine reads). -/
structure Faction where
  id : Id
  resourcesEnergy : ℚ := 0
  resourcesMinerals : ℚ := 0
  resourcesResearch : ℚ := 0
  planets : List Id := []
  fleets : List Id := []
  technologies : List Id := []
  diplomacy : List (Id × DiplomacyStatus) := []
  reputation : ℚ := 100
  strategyMode : String := "peace"
  warTarget : Option Id := none
  attackCharges : ℤ := 1
  defenseCharges : ℤ := 1
deriving DecidableEq, Repr

/-- `game_engine.GameEvent` (turn, type tag, faction; description/data elided). -/
structure GameEvent where
  turn : ℤ
  eventType : String
  faction : Option Id
deriving DecidableEq, Repr

/-- `game_engine.GameState` (the fields the turn engine reads and writes). -/
structure GameState where
  turn : ℤ := 0
  planets : List (Id × Planet) := []
  factions : List (Id × Faction) := []
  fleets : List (Id × Fleet) := []
  connections : List (Id × Id) := []
  events : List GameEvent := []
  gameOver : Bool := false
  winner : Option Id := none
  endReason : Option String := none
  maxTurns : ℤ := 200
  finalScores : List (Id × ℚ) := []
  truceUntil : ℚ := 0
  gameStartTime : ℚ := 0
  /-- the value `time.time()` returns during this call -/
  now : ℚ := 0
  colonizeCounts : List (Id × ℤ) := []
  siege : List (Id × List (Id × ℤ)) := []
  /-- `rules["desperate_capture_threshold"]` -/
  desperateThreshold : ℤ := 10
  allowPostgame : Bool := false
deriving DecidableEq, Repr

/-- `GameState.add_event`. -/
def GameState.addEvent (gs : GameState) (eventType : String) (faction : Option Id) :
    GameState :=
  { gs with events := gs.events ++ [⟨gs.turn, eventType, faction⟩] }

/-- The recurring guard `truce_until and time.time() < truce_until`
(`0.0` is falsy in Python). -/
def GameState.truceActive (gs : GameState) : Bool :=
  gs.truceUntil ≠ 0 ∧ gs.now < gs.truceUntil

/-- `galaxy_generator.GalaxyGenerator.get_connected_planets`. -/
def getConnectedPlanets (gs : GameState) (planetId : Id) : List Id :=
  gs.connections.foldl
    (fun acc c =>
      if c.1 = planetId then acc ++ [c.2]
      else if c.2 = planetId then acc ++ [c.1]
      else acc) []

/-- `game_engine.calculate_faction_power`. -/
def calculateFactionPower (gs : GameState) (faction : Faction) : ℚ :=
  let resourceScore :=
    faction.resourcesEnergy * (6/10) + faction.resourcesMinerals * (8/10) +
      faction.resourcesResearch * 1
  let planetScore : ℚ := (faction.planets.length : ℚ) * 120
  let populationScore : ℚ :=
    (faction.planets.map (fun pid =>
      match alookup gs.planets pid with
      | none => (0 : ℚ)
      | some p => (p.population : ℚ) * (3/2))).sum
  let defenseScore : ℚ :=
    (faction.planets.map (fun pid =>
      match alookup gs.planets pid with
      | none => (0 : ℚ)
      | some p =>
        ((p.buildings.countP (fun b => b = BuildingType.defenseStation)) : ℚ) * 50)).sum
  let fleetPower : ℚ :=
    (faction.fleets.map (fun fid =>
      match alookup gs.fleets fid with
      | none => (0 : ℚ)
      | some fl => (fl.getStrength : ℚ) * 2)).sum
  let techScore : ℚ := (faction.technologies.length : ℚ) * 90
  let reputationMod : ℚ :=
    1 + max (-(3/10)) (min (3/10) ((faction.reputation - 50) / 200))
  (resourceScore + planetScore + populationScore + defenseScore + fleetPower +
    techScore) * reputationMod

/-! ## Command executor (`TurnEngine._execute_commands` and the handlers)

Each handler returns the (possibly partially) mutated state together with an
optional uncaught Python exception (`KeyError` on a failed `d[k]` lookup); in
Python the mutation is in place, so the state accompanying an error is the
state at the moment the exception was raised. -/

/-- Result of running one command handler: mutated state plus an optional
uncaught exception. -/
structure ExecResult where
  state : GameState
  error : Option String
deriving DecidableEq, Repr

/-- The `try/except` wrapper around one command in
`TurnEngine._execute_commands`: an exception is swallowed and recorded as a
`command_failed` event naming `command.faction_id`. -/
def runCommandCaught (gs : GameState) (factionId : Id) (run : GameState → ExecResult) :
    GameState :=
  let r := run gs
  match r.error with
  | none => r.state
  | some _ => r.state.addEvent "command_failed" (some factionId)

/-- `TurnEngine._execute_build` (the building-type string has already been
parsed into `BuildingType`). -/
def executeBuild (gs : GameState) (factionId planetId : Id) (building : BuildingType) :
    ExecResult :=
  match alookup gs.factions factionId with
  | none => ⟨gs, some "KeyError: faction"⟩
  | some faction =>
    match alookup gs.planets planetId with
    | none => ⟨gs, some "KeyError: planet"⟩
    | some planet =>
      if planet.owner ≠ some faction.id then ⟨gs, none⟩
      else if 5 ≤ planet.buildings.length then ⟨gs, none⟩
      else if planet.population ≤ 0 then ⟨gs, none⟩
      else
        let planet' := { planet with
          population := planet.population - 1,
          buildings := planet.buildings ++ [building] }
        let gs' := { gs with planets := aset gs.planets planetId planet' }
        ⟨gs'.addEvent "construction" (some faction.id), none⟩

/-- `TurnEngine._execute_move`.  The destination is written to the fleet
*before* the `fleet_movement` event is built; building that event reads
`planets[destination].name`, which raises `KeyError` when the destination id
is not a planet — after the mutation has already happened. -/
def executeMove (gs : GameState) (factionId fleetId destination : Id) : ExecResult :=
  match alookup gs.factions factionId with
  | none => ⟨gs, some "KeyError: faction"⟩
  | some faction =>
    match alookup gs.fleets fleetId with
    | none => ⟨gs, none⟩
    | some fleet =>
      if fleet.owner ≠ faction.id then ⟨gs, none⟩
      else
        let fleet' := { fleet with destination := some destination, travelProgress := 0 }
        let gs' := { gs with fleets := aset gs.fleets fleetId fleet' }
        match alookup gs'.planets destination with
        | none => ⟨gs', some "KeyError: destination planet"⟩
        | some _ => ⟨gs'.addEvent "fleet_movement" (some faction.id), none⟩

/-- `TurnEngine._execute_diplomacy` with `action == "change_status"` (any
other action string is a silent no-op in the source).  The betrayal penalty
`faction.reputation -= 30` is applied *without clamping*. -/
def executeDiplomacy (gs : GameState) (factionId targetId : Id)
    (newStatus : DiplomacyStatus) : ExecResult :=
  match alookup gs.factions factionId with
  | none => ⟨gs, some "KeyError: faction"⟩
  | some faction =>
    let oldStatus := (alookup faction.diplomacy targetId).getD .neutral
    let betray := oldStatus = DiplomacyStatus.allied ∧
      (newStatus = DiplomacyStatus.hostile ∨ newStatus = DiplomacyStatus.war)
    let faction1 :=
      if betray then { faction with reputation := faction.reputation - 30 } else faction
    let gs1 := { gs with factions := aset gs.factions factionId faction1 }
    let gs2 := if betray then gs1.addEvent "betrayal" (some faction1.id) else gs1
    let faction2 := { faction1 with diplomacy := aset faction1.diplomacy targetId newStatus }
    let gs3 := { gs2 with factions := aset gs2.factions factionId faction2 }
    match alookup gs3.factions targetId with
    | none => ⟨gs3, some "KeyError: target faction"⟩
    | some target =>
      let target' := { target with diplomacy := aset target.diplomacy factionId newStatus }
      let gs4 := { gs3 with factions := aset gs3.factions targetId target' }
      ⟨gs4.addEvent "diplomacy" (some factionId), none⟩

/-- `TurnEngine._process_diplomacy`: +1 reputation per turn, clamped at 100. -/
def processDiplomacy (gs : GameState) : GameState :=
  { gs with
    factions := gs.factions.map (fun p =>
      if p.2.reputation < 100 then
        (p.1, { p.2 with reputation := min 100 (p.2.reputation + 1) })
      else p) }

/-! ## Combat resolver (`TurnEngine._resolve_combat`) -/

/-- The proficiency multiplier `1.0 + max(-0.1, min(0.1, p / 100.0))` used in
`_resolve_combat` and `_calc_capture_effective_power`. -/
def profMult (p : ℚ) : ℚ := 1 + max (-(1/10)) (min (1/10) (p / 100))

/-- A fleet's proficiency-adjusted strength at the top of `_resolve_combat`. -/
def adjStrength (f : Fleet) : ℚ := (f.getStrength : ℚ) * profMult f.proficiency

/-- The per-ship-type loss loop: each count loses
`int(count × damage_ratio × 0.5)`, floored at 0. -/
def applyLosses (ships : List (ShipType × ℤ)) (damageRatio : ℚ) :
    List (ShipType × ℤ) :=
  ships.map (fun p => (p.1, max 0 (p.2 - pyInt ((p.2 : ℚ) * damageRatio * (1/2)))))

/-- `TurnEngine._resolve_combat` on the two fleet objects: returns the two
updated fleets and the owner recorded as `winner` in the `combat` event, or
`none` when the total adjusted strength is `0` (the source returns without
emitting an event in that case).  The winner is
`fleet1.owner if strength1 > strength2 else fleet2.owner`. -/
def resolveCombat (fleet1 fleet2 : Fleet) : Option (Fleet × Fleet × Id) :=
  let strength1 := adjStrength fleet1
  let strength2 := adjStrength fleet2
  let total := strength1 + strength2
  if total = 0 then none
  else
    let damageRatio1 := strength2 / total
    let damageRatio2 := strength1 / total
    let f1 := { fleet1 with
      ships := applyLosses fleet1.ships damageRatio1,
      proficiency := min 100 (fleet1.proficiency + 3/2) }
    let f2 := { fleet2 with
      ships := applyLosses fleet2.ships damageRatio2,
      proficiency := min 100 (fleet2.proficiency + 1) }
    let winner := if strength1 > strength2 then fleet1.owner else fleet2.owner
    some (f1, f2, winner)

/-! ## Capture engine (`TurnEngine._attempt_planet_capture` and helpers) -/

/-- `TurnEngine._count_faction_ships_on_planet`. -/
def countFactionShipsOnPlanet (gs : GameState) (factionId planetId : Id) : ℤ :=
  (gs.fleets.map (fun p =>
    if p.2.owner = factionId ∧ p.2.position = planetId then
      (p.2.ships.map (·.2)).sum
    else 0)).sum

/-- `TurnEngine._can_use_energy_shield`. -/
def canUseEnergyShield (gs : GameState) (defender : Faction) : Bool :=
  if "tech_shields" ∉ defender.technologies then false
  else if gs.gameStartTime ≤ 0 ∨ gs.now - gs.gameStartTime < 600 then false
  else
    let total : ℤ := max 1 (gs.planets.length : ℤ)
    let own : ℤ := (defender.planets.length : ℤ)
    if own ≤ 2 then true
    else (9/10 : ℚ) ≤ (own : ℚ) / (total : ℚ)

/-- The beachhead multiplier computed at the top of
`_attempt_planet_capture`: `1.2` while
`planet.capture_protection_until_turn` is non-zero (truthy) and still ahead
of the current turn, else `1.0`. -/
def beachheadMultOf (gs : GameState) (planet : Planet) : ℚ :=
  if planet.captureProtectionUntilTurn ≠ 0 ∧
      gs.turn < planet.captureProtectionUntilTurn then 6/5 else 1

/-- Sum of the strengths of `ownerId`'s fleets stationed at `planetId`
(the two raw-strength loops of `_calc_capture_effective_power`). -/
def rawStrengthAt (gs : GameState) (ownerId planetId : Id) : ℚ :=
  ((gs.fleets.filter (fun p => p.2.owner = ownerId ∧ p.2.position = planetId)).map
    (fun p => (p.2.getStrength : ℚ))).sum

/-- The siege-point count stored for `(planetId, attackerId)`:
`game_state.siege.get(planet_id, {}).get(attacker_id, 0)`. -/
def siegePointsOf (siege : List (Id × List (Id × ℤ))) (planetId attackerId : Id) : ℤ :=
  (alookup ((alookup siege planetId).getD []) attackerId).getD 0

/-- `TurnEngine._calc_capture_effective_power`, returning
`(atk_power, def_power)` (the `details` payload, used only in event data, is
elided). -/
def calcCaptureEffectivePower (gs : GameState) (attacker defender : Faction)
    (planet : Planet) (beachheadMult : ℚ) : ℚ × ℚ :=
  let atkFleets :=
    gs.fleets.filter (fun p => p.2.owner = attacker.id ∧ p.2.position = planet.id)
  let atkRaw := rawStrengthAt gs attacker.id planet.id
  let profSamples := atkFleets.length
  let avgProf : ℚ :=
    if 0 < profSamples then
      ((atkFleets.map (fun p => p.2.proficiency)).sum) / (profSamples : ℚ)
    else 0
  let techMultAtk : ℚ := 1 +
    (if "tech_laser" ∈ attacker.technologies then 1/10 else 0) +
    (if "tech_ftl" ∈ attacker.technologies then 1/20 else 0)
  let adjOwn := ((getConnectedPlanets gs planet.id).filter
    (fun n => n ∈ attacker.planets)).length
  let adjMult : ℚ := 1 + min (12/100) ((adjOwn : ℚ) * (3/100))
  let atkPower := atkRaw * profMult avgProf * techMultAtk * adjMult
  let defRaw := rawStrengthAt gs defender.id planet.id
  let defMult : ℚ := 1 +
    (if planet.buildings.contains BuildingType.defenseStation then 1/5 else 0) +
    (if "tech_laser" ∈ defender.technologies then 1/10 else 0) +
    (if "tech_ftl" ∈ defender.technologies then 1/20 else 0)
  let pts := siegePointsOf gs.siege planet.id attacker.id
  let siegeMult : ℚ := max (2/5) (1 / (1 + (1/10) * (pts : ℚ)))
  let defPower := defRaw * defMult * siegeMult * beachheadMult
  (atkPower, defPower)

/-- Failure of a capture roll: `siege.setdefault(planet,{})[attacker] += 1`. -/
def siegeAddPoint (siege : List (Id × List (Id × ℤ))) (planetId attackerId : Id) :
    List (Id × List (Id × ℤ)) :=
  let node := (alookup siege planetId).getD []
  aset siege planetId (aset node attackerId ((alookup node attackerId).getD 0 + 1))

/-- Success of a capture: `siege.pop(planet_id, None)`. -/
def siegeClear (siege : List (Id × List (Id × ℤ))) (planetId : Id) :
    List (Id × List (Id × ℤ)) :=
  aremove siege planetId

/-- The defender's technology interception bonus inside
`_attempt_planet_capture`: +15% for laser, +15% for FTL. -/
def techBonusOf (defender : Faction) : ℚ :=
  (if "tech_laser" ∈ defender.technologies then 3/20 else 0) +
  (if "tech_ftl" ∈ defender.technologies then 3/20 else 0)

/-- The explicit `random.random()` draws consumed by one capture attempt. -/
structure CaptureRolls where
  defenseStationRoll : ℚ := 1
  techRoll : ℚ := 1
  captureRoll : ℚ := 1
deriving DecidableEq, Repr

/-- `TurnEngine._attempt_planet_capture` with the final probabilistic
comparison factored out into the Boolean `succeed` (so that the state
transformation stays computable; `attemptPlanetCapture` below glues the real
comparison back in).  The sequential `defended` flag of the source is
rendered as a chain of `else if`s, preserving the evaluation order:
defend-mode charge, defense-station charge, defense-station 30% roll,
laser/FTL 15%+15% roll, energy shield. -/
def attemptPlanetCaptureCore (gs : GameState) (attackerId defenderId planetId : Id)
    (r : CaptureRolls) (succeed : Bool) : GameState × Bool :=
  match alookup gs.factions attackerId, alookup gs.factions defenderId,
      alookup gs.planets planetId with
  | some attacker, some defender, some planet =>
    if gs.truceActive then
      (gs.addEvent "truce_active" (some attackerId), false)
    else if attacker.planets.length = 0 ∧
        gs.desperateThreshold < countFactionShipsOnPlanet gs attackerId planetId then
      -- desperate capture short-circuit
      if canUseEnergyShield gs defender then
        (gs.addEvent "shield_defense" (some defenderId), false)
      else
        let planet' := { planet with owner := some attackerId }
        let gs1 := { gs with planets := aset gs.planets planetId planet' }
        let attacker' :=
          if planetId ∈ attacker.planets then attacker
          else { attacker with planets := attacker.planets ++ [planetId] }
        let gs2 := { gs1 with factions := aset gs1.factions attackerId attacker' }
        let defender' :=
          if planetId ∈ defender.planets then
            { defender with planets := defender.planets.erase planetId }
          else defender
        let gs3 := { gs2 with factions := aset gs2.factions defenderId defender' }
        (gs3.addEvent "planet_captured" (some attackerId), true)
    else if defender.strategyMode = "defend" ∧ 0 < defender.defenseCharges then
      let defender' := { defender with defenseCharges := defender.defenseCharges - 1 }
      ({ gs with factions := aset gs.factions defenderId defender' }, false)
    else if planet.buildings.contains BuildingType.defenseStation ∧
        0 < defender.defenseCharges then
      let defender' := { defender with defenseCharges := defender.defenseCharges - 1 }
      ({ gs with factions := aset gs.factions defenderId defender' }, false)
    else if planet.buildings.contains BuildingType.defenseStation ∧
        r.defenseStationRoll < 3/10 then
      (gs, false)
    else
      if 0 < techBonusOf defender ∧ r.techRoll < techBonusOf defender then
        (gs, false)
      else if canUseEnergyShield gs defender then
        (gs.addEvent "shield_defense" (some defenderId), false)
      else if succeed then
        -- capture success
        let defenderW := { defender with diplomacy := aset defender.diplomacy attackerId .war }
        let attackerW := { attacker with diplomacy := aset attacker.diplomacy defenderId .war }
        let defender' :=
          if planet.owner = some defenderW.id ∧ planetId ∈ defenderW.planets then
            { defenderW with planets := defenderW.planets.erase planetId }
          else defenderW
        let planet' := { planet with
          owner := some attackerId,
          population := max 10 (pyInt ((planet.population : ℚ) * (7/10))),
          captureProtectionUntilTurn := gs.turn + 2 }
        let attacker' :=
          if planetId ∈ attackerW.planets then attackerW
          else { attackerW with planets := attackerW.planets ++ [planetId] }
        let gs1 := { gs with
          factions := aset (aset gs.factions defenderId defender') attackerId attacker',
          planets := aset gs.planets planetId planet',
          siege := siegeClear gs.siege planetId }
        (gs1.addEvent "planet_conquered" (some attackerId), true)
      else
        -- capture failure: accumulate siege points
        let gs1 := { gs with siege := siegeAddPoint gs.siege planetId attackerId }
        (gs1.addEvent "defense_success" (some defenderId), false)
  | _, _, _ => (gs, false)

/-- `x ** 1.1` of the capture formula, exactly, as a real power. -/
noncomputable def pow11 (x : ℝ) : ℝ := x ^ ((11 : ℝ)/10)

/-- The success probability computed in `_attempt_planet_capture`:
`a^1.1 / (a^1.1 + d^1.1)` over the clamped effective powers, `0` when the
denominator is `0`. -/
noncomputable def captureProb (atkPower defPower : ℚ) : ℝ :=
  let a := pow11 (max 0 (atkPower : ℝ))
  let d := pow11 (max 0 (defPower : ℝ))
  if 0 < a + d then a / (a + d) else 0

/-- The `(atk_power, def_power)` pair for a capture attempt, looked up from
the state exactly as `_attempt_planet_capture` does. -/
def capturePowersAt (gs : GameState) (attackerId defenderId planetId : Id) : ℚ × ℚ :=
  match alookup gs.factions attackerId, alookup gs.factions defenderId,
      alookup gs.planets planetId with
  | some attacker, some defender, some planet =>
    calcCaptureEffectivePower gs attacker defender planet (beachheadMultOf gs planet)
  | _, _, _ => (0, 0)

/-- The roll `random.random() < prob` of `_attempt_planet_capture`. -/
noncomputable def captureDecision (atkPower defPower roll : ℚ) : Bool :=
  decide ((roll : ℝ) < captureProb atkPower defPower)

/-- `TurnEngine._attempt_planet_capture`: the computable state transformation
driven by the real-valued probability comparison. -/
noncomputable def attemptPlanetCapture (gs : GameState)
    (attackerId defenderId planetId : Id) (r : CaptureRolls) : GameState × Bool :=
  let powers := capturePowersAt gs attackerId defenderId planetId
  attemptPlanetCaptureCore gs attackerId defenderId planetId r
    (captureDecision powers.1 powers.2 r.captureRoll)

/-! ## Siege decay (tail of `TurnEngine.process_turn`) -/

/-- One planet's siege entry after the per-turn decay loop: every count drops
by 1 (floored at 0); if all resulting counts are 0 the whole entry is
dropped (`siege.pop(pid)`); otherwise, when anything changed, counts that
reached 0 are filtered out. -/
def siegeDecayEntry (mp : List (Id × ℤ)) : Option (List (Id × ℤ)) :=
  let mp2 := mp.map (fun kv => (kv.1, max 0 (kv.2 - 1)))
  if mp2.all (fun kv => kv.2 = 0) then none
  else if mp2 ≠ mp then some (mp2.filter (fun kv => 0 < kv.2))
  else some mp

/-- The siege natural-decay loop at the end of `process_turn`. -/
def siegeDecay (siege : List (Id × List (Id × ℤ))) : List (Id × List (Id × ℤ)) :=
  siege.filterMap (fun e => (siegeDecayEntry e.2).map (fun m => (e.1, m)))

/-! ## Victory evaluator (`TurnEngine._check_victory_conditions`) -/

/-- `TurnEngine._calc_all_scores`. -/
def calcAllScores (gs : GameState) : List (Id × ℚ) :=
  gs.factions.map (fun p => (p.1, calculateFactionPower gs p.2))

/-- `max(scores.items(), key=lambda kv: kv[1])[0]`: Python's `max` keeps the
first maximal element. -/
def maxScoreFaction : List (Id × ℚ) → Option Id
  | [] => none
  | x :: xs => some ((xs.foldl (fun best p => if best.2 < p.2 then p else best) x).1)

/-- `TurnEngine._check_victory_conditions` (the tech/economic paths are
behind configuration flags that default to off and are not reached from this
function).  Note that the domination branch sets `game_over` and
`final_scores` but never assigns `winner` or `end_reason`. -/
def checkVictoryConditions (gs : GameState) : GameState :=
  if gs.gameOver then gs
  else if gs.truceActive then gs
  else
    let owners := gs.planets.filterMap (fun p => p.2.owner)
    if 0 < owners.length ∧ owners.dedup.length = 1 then
      { gs with gameOver := true, finalScores := calcAllScores gs }
    else if gs.maxTurns ≤ gs.turn then
      let scores := calcAllScores gs
      let gs1 := { gs with finalScores := scores }
      match maxScoreFaction scores with
      | none => gs1
      | some w =>
        { gs1 with winner := some w, endReason := some "回合上限", gameOver := true }
    else gs

/-! ## Colonization arbiter (`TurnEngine._resolve_colonize_conflicts`) -/

/-- One entry of the `contenders` list:
`(power, origin_population, faction, from_planet)`. -/
structure Contender where
  power : ℚ
  originPopulation : ℤ
  factionId : Id
  fromPlanet : Id
deriving DecidableEq, Repr

/-- The comparison underlying
`contenders.sort(key=lambda item: (item[0], item[1]))`: ascending
lexicographic order on `(power, origin_population)`. -/
def contenderLe (a b : Contender) : Bool :=
  a.power < b.power ∨
    (a.power = b.power ∧ a.originPopulation ≤ b.originPopulation)

/-- `contenders.sort(...)` (a stable sort) followed by `contenders[-1]`. -/
def colonizeWinner (contenders : List Contender) : Option Contender :=
  (contenders.mergeSort contenderLe).getLast?

/-- The contender-collection loop of `_resolve_colonize_conflicts` for one
target planet: each element of `cmds` is a `(faction_id, from_planet)` pair
from one colonize command (a command with no `from_planet` parameter is
skipped).  Invalid bids are dropped, emitting `colonization_failed` events
for the quota and population checks. -/
def collectContenders (gs0 : GameState) (planetId : Id) (cmds : List (Id × Option Id)) :
    GameState × List Contender :=
  cmds.foldl
    (fun acc cmd =>
      let gs := acc.1
      let cs := acc.2
      match alookup gs.factions cmd.1 with
      | none => (gs, cs)
      | some faction =>
        match cmd.2 with
        | none => (gs, cs)
        | some fromPlanet =>
          if fromPlanet ∉ faction.planets then (gs, cs)
          else if planetId ∉ getConnectedPlanets gs fromPlanet then (gs, cs)
          else
            match alookup gs.planets fromPlanet with
            | none => (gs, cs)
            | some originPlanet =>
              if 4 ≤ (alookup gs.colonizeCounts faction.id).getD 0 then
                (gs.addEvent "colonization_failed" (some faction.id), cs)
              else
                let consume : ℤ :=
                  if "tech_colonization" ∈ faction.technologies then 3 else 10
                if originPlanet.population < 10 + consume then
                  (gs.addEvent "colonization_failed" (some faction.id), cs)
                else
                  (gs, cs ++ [⟨calculateFactionPower gs faction,
                    originPlanet.population, faction.id, fromPlanet⟩]))
    (gs0, [])

/-- The body of `_resolve_colonize_conflicts` for one contested target
planet.  `bonusRoll` stands for the `random.randint(1, 5)` extra population
drawn when the winner holds the colonization technology. -/
def resolveColonizeBatch (gs0 : GameState) (planetId : Id)
    (cmds : List (Id × Option Id)) (bonusRoll : ℤ) : GameState :=
  match alookup gs0.planets planetId with
  | none => gs0
  | some target =>
    if target.owner ≠ none then gs0
    else
      let (gs, contenders) := collectContenders gs0 planetId cmds
      let sorted := contenders.mergeSort contenderLe
      match sorted.getLast? with
      | none => gs
      | some winner =>
        match alookup gs.factions winner.factionId with
        | none => gs
        | some winnerFaction =>
          let consume : ℤ :=
            if "tech_colonization" ∈ winnerFaction.technologies then 3 else 10
          match alookup gs.planets winner.fromPlanet with
          | none => gs.addEvent "colonization_failed" (some winnerFaction.id)
          | some winnerOrigin =>
            if winnerOrigin.population < 10 + consume then
              gs.addEvent "colonization_failed" (some winnerFaction.id)
            else
              let bonusPop : ℤ :=
                if "tech_colonization" ∈ winnerFaction.technologies then bonusRoll else 0
              let target' := { target with
                owner := some winnerFaction.id, population := 10 + bonusPop }
              let winnerFaction' :=
                if planetId ∈ winnerFaction.planets then winnerFaction
                else { winnerFaction with planets := winnerFaction.planets ++ [planetId] }
              let winnerOrigin' := { winnerOrigin with
                population := max 10 (winnerOrigin.population - consume) }
              let gs1 := { gs with
                planets := aset (aset gs.planets planetId target')
                  winner.fromPlanet winnerOrigin',
                factions := aset gs.factions winner.factionId winnerFaction',
                colonizeCounts := aset gs.colonizeCounts winnerFaction.id
                  ((alookup gs.colonizeCounts winnerFaction.id).getD 0 + 1) }
              let gs2 := gs1.addEvent "colonization" (some winnerFaction.id)
              sorted.dropLast.foldl
                (fun g c => g.addEvent "colonization_contested" (some c.factionId)) gs2

/-! ## Concrete scenario data used by the theorems -/

/-- A two-faction state in which every owned planet (there is exactly one)
belongs to faction `f1`, the truce window is inactive and the game is not
over: the domination condition of the claim holds. -/
def dominationState : GameState :=
  { turn := 3,
    planets := [("p1", { id := "p1", owner := some "f1", population := 20 }),
                ("p2", { id := "p2" })],
    factions := [("f1", { id := "f1", planets := ["p1"] }),
                 ("f2", { id := "f2" })] }

/-- A reachable state (three prior betrayals from the default reputation of
100 leave `f1` at 10) in which `f1` is allied to `f2`. -/
def betrayalState : GameState :=
  { turn := 7,
    factions := [("f1", { id := "f1", reputation := 10,
                          diplomacy := [("f2", DiplomacyStatus.allied)] }),
                 ("f2", { id := "f2" })] }

/-- Two fleets of equal adjusted strength (6 each) with different owners. -/
def tieFleet1 : Fleet :=
  { id := "fl1", owner := "A", ships := [(.corvette, 2)], position := "p" }

/-- See `tieFleet1`. -/
def tieFleet2 : Fleet :=
  { id := "fl2", owner := "B", ships := [(.scout, 6)], position := "p" }

/-- The 100-vs-50 scenario: two battleships (strength 100) against one
(strength 50), both with proficiency 0. -/
def warFleet100 : Fleet :=
  { id := "w1", owner := "A", ships := [(.battleship, 2)], position := "p" }

/-- See `warFleet100`. -/
def warFleet50 : Fleet :=
  { id := "w2", owner := "B", ships := [(.battleship, 1)], position := "p" }

/-- A small state whose faction table does not contain `"ghost"`. -/
def missingBuildState : GameState :=
  { turn := 2,
    planets := [("p1", { id := "p1", owner := some "f1", population := 5 })],
    factions := [("f1", { id := "f1", planets := ["p1"] })] }

/-- A concrete state for the move-command witness. -/
def moveState : GameState :=
  { turn := 4,
    planets := [("p0", { id := "p0" })],
    factions := [("A", { id := "A", fleets := ["fl"] })],
    fleets := [("fl", { id := "fl", owner := "A", ships := [(.scout, 1)],
                        position := "p0" })] }

/-- A concrete siege table for the witness of `siege_points_lifecycle`. -/
def siegeExample : List (Id × List (Id × ℤ)) :=
  [("p1", [("A", 3), ("B", 1)]), ("p2", [("A", 1)])]

/-- Concrete attacker for the C7 witness. -/
def probeAttacker : Faction := { id := "A", planets := ["pa"] }

/-- Concrete defender for the C7 witness. -/
def probeDefender : Faction := { id := "D", planets := ["p"] }

/-- Concrete target planet for the C7 witness. -/
def probePlanet : Planet := { id := "p", owner := some "D", population := 30 }

/-- Concrete state for the C7 witness: one attacker fleet of two destroyers
(raw strength 16) at the target, no defender fleets, no modifiers. -/
def probeState : GameState :=
  { turn := 1,
    planets := [("p", probePlanet)],
    factions := [("A", probeAttacker), ("D", probeDefender)],
    fleets := [("f1", { id := "f1", owner := "A", ships := [(.destroyer, 2)],
                        position := "p" })] }

/-- The spec's fixed event-tag vocabulary. -/
def eventTypeVocabulary : List String :=
  ["turn_end", "command_failed", "colonization", "colonization_contested",
   "colonization_failed", "construction", "fleet_movement", "fleet_arrived",
   "fleet_intercepted", "garrison_overflow", "research_started",
   "research_completed", "diplomacy", "betrayal", "strategy",
   "planet_conquered", "defense_success", "shield_defense", "combat",
   "random_event", "turn_ignored", "game_over"]

/-- Every event-type tag passed to `add_event` on a reachable path of
`process_turn` and its callees, transcribed from the source call sites:
`turn_ignored` (early game-over return), `command_failed`
(`_execute_commands` catch-all), `construction` (`_execute_build`),
`fleet_movement` (`_execute_move`), `research_started`
(`_execute_research`), `betrayal` and `diplomacy` (`_execute_diplomacy`),
`strategy` (`_execute_strategy`), `colonization_failed`, `colonization` and
`colonization_contested` (`_resolve_colonize_conflicts`),
`research_completed` (`_process_research`), `defense_success`
(`_resolve_war_plans` and the capture failure path), `truce_active`,
`shield_defense`, `planet_captured` and `planet_conquered`
(`_attempt_planet_capture`), `fleet_intercepted`, `fleet_arrived` and
`garrison_overflow` (`_process_fleet_movement`), `combat`
(`_resolve_combat`), `random_event` (`_process_events`), `turn_end` and
`game_over` (tail of `process_turn`).  The `fleet_captured` call site is
excluded: it sits after the `return` of `_get_garrison_cap` and is
unreachable. -/
def processTurnEmittedTags : List String :=
  ["turn_ignored", "command_failed", "construction", "fleet_movement",
   "research_started", "betrayal", "diplomacy", "strategy",
   "colonization_failed", "colonization", "colonization_contested",
   "research_completed", "defense_success", "truce_active", "shield_defense",
   "planet_captured", "planet_conquered", "fleet_intercepted", "fleet_arrived",
   "garrison_overflow", "combat", "random_event", "turn_end", "game_over"]

/-- Faction for the C5 diplomacy-with-missing-target witness. -/
def diploFaction : Faction := { id := "f1" }

/-- State for the C5 diplomacy-with-missing-target witness: only `f1`
exists, so a status change toward `"ghost"` raises after mutating `f1`. -/
def diploMissState : GameState :=
  { turn := 6, factions := [("f1", diploFaction)] }

/-- Truce-active state for the C9 counterexample. -/
def truceCaptureState : GameState :=
  { turn := 1,
    planets := [("p", { id := "p", owner := some "D", population := 15 })],
    factions := [("A", { id := "A", planets := ["pa"] }),
                 ("D", { id := "D", planets := ["p"] })],
    truceUntil := 100, now := 50 }

/-- Desperate-capture state for the C9 counterexample: the attacker owns no
planets and has 11 ships (above the threshold of 10) stationed at the
target. -/
def desperateCaptureState : GameState :=
  { turn := 1,
    planets := [("p", { id := "p", owner := some "D", population := 15 })],
    factions := [("A", { id := "A" }), ("D", { id := "D", planets := ["p"] })],
    fleets := [("f1", { id := "f1", owner := "A", ships := [(.scout, 11)],
                        position := "p" })] }

/-- Attacker for the C4 scenario. -/
def truncAttacker : Faction := { id := "A", planets := ["pa"] }

/-- Defender for the C4 scenario. -/
def truncDefender : Faction := { id := "D", planets := ["p1"] }

/-- Target planet with population 21 for the C4 scenario. -/
def truncPlanet : Planet := { id := "p1", owner := some "D", population := 21 }

/-- C4 scenario state: one attacker fleet of raw strength 12 at the target,
no defender fleets (so the capture probability is exactly 1), population
21. -/
def truncState : GameState :=
  { turn := 1,
    planets := [("p1", truncPlanet)],
    factions := [("A", truncAttacker), ("D", truncDefender)],
    fleets := [("f1", { id := "f1", owner := "A", ships := [(.corvette, 4)],
                        position := "p1" })] }

/-- Rolls for the C4 scenario: the capture roll 1/2 is below the success
probability 1. -/
def truncRolls : CaptureRolls := { captureRoll := 1/2 }

/-! ## Helper lemmas -/

theorem alookup_aset_self {α : Type} (l : List (Id × α)) (k : Id) (v : α) :
    alookup (aset l k v) k = some v := by
  unfold aset alookup
  by_cases h : l.any (fun p => p.1 = k) = true
  · rw [if_pos h]
    induction l with
    | nil => simp at h
    | cons x xs ih =>
      by_cases hx : x.1 = k
      · simp [List.find?, hx]
      · simp only [List.any_cons, Bool.or_eq_true, decide_eq_true_eq] at h
        rcases h with h | h
        · exact absurd h hx
        · simpa [List.find?, hx] using ih h
  · rw [if_neg h]
    induction l with
    | nil => simp [List.find?]
    | cons x xs ih =>
      simp only [List.any_cons, Bool.or_eq_true, decide_eq_true_eq, not_or] at h
      simpa [List.cons_append, List.find?, h.1] using ih (by simpa using h.2)

theorem alookup_aset_ne {α : Type} (l : List (Id × α)) (k k' : Id) (v : α)
    (h : k' ≠ k) : alookup (aset l k v) k' = alookup l k' := by
  have hkk : ¬k = k' := fun hh => h hh.symm
  unfold aset alookup
  by_cases hany : l.any (fun p => p.1 = k) = true
  · rw [if_pos hany]
    clear hany
    induction l with
    | nil => simp
    | cons x xs ih =>
      by_cases hx : x.1 = k
      · have hx' : ¬x.1 = k' := by rw [hx]; exact hkk
        simpa [List.find?, hx, hx', hkk] using ih
      · by_cases hx' : x.1 = k'
        · simp [List.find?, hx, hx', hkk, h]
        · simpa [List.find?, hx, hx'] using ih
  · rw [if_neg hany]
    clear hany
    induction l with
    | nil => simp [List.find?, hkk]
    | cons x xs ih =>
      by_cases hx' : x.1 = k'
      · simp [List.cons_append, List.find?, hx']
      · simpa [List.cons_append, List.find?, hx'] using ih

/-! ## C1 — domination victory -/

/-- C1: the domination branch of `_check_victory_conditions` sets
`game_over` and snapshots `final_scores`, but never assigns the `winner`
field — it stays `None` even though faction `f1` owns every owned planet,
contradicting the claim that the winner is set to that faction's id. -/
theorem domination_sets_game_over_without_winner :
    (checkVictoryConditions dominationState).gameOver = true ∧
    (checkVictoryConditions dominationState).winner = none ∧
    (checkVictoryConditions dominationState).finalScores ≠ [] := by
  refine ⟨?_, ?_, ?_⟩ <;>
  · simp only [checkVictoryConditions, dominationState, GameState.truceActive,
      calcAllScores, calculateFactionPower, alookup, List.find?, List.dedup,
      List.filterMap, List.map, String.reduceEq, reduceIte, decide_True,
      decide_False, Option.getD, Option.map]
    try norm_num
    try simp

/-! ## C2 — reputation bounds -/

/-- C2: the betrayal penalty `faction.reputation -= 30` is applied without
clamping, so downgrading an allied relation to war from reputation 10 leaves
the initiator at -20 — the reputation ∈ [0,100] invariant is violated and
the command completes without error. -/
theorem betrayal_penalty_drives_reputation_negative :
    ((alookup (executeDiplomacy betrayalState "f1" "f2" DiplomacyStatus.war).state.factions
        "f1").map (·.reputation) = some (-20) ∧ (-20 : ℚ) < 0) ∧
    (executeDiplomacy betrayalState "f1" "f2" DiplomacyStatus.war).error = none := by
  refine ⟨⟨?_, by norm_num⟩, ?_⟩ <;>
  · simp only [executeDiplomacy, betrayalState, alookup, aset, GameState.addEvent,
      List.find?, List.any_cons, List.any_nil, List.map, String.reduceEq, reduceIte,
      decide_True, decide_False, Option.getD, Option.map]
    try norm_num

/-! ## C3 — combat winner -/

/-- C3 counterexample: on an exact tie of proficiency-adjusted strengths the
`combat` event records the owner of the *second* fleet examined
(`winner = fleet1.owner if strength1 > strength2 else fleet2.owner`), not
the first as the claim states. -/
theorem combat_tie_goes_to_second_fleet :
    adjStrength tieFleet1 = adjStrength tieFleet2 ∧
    tieFleet1.owner ≠ tieFleet2.owner ∧
    (resolveCombat tieFleet1 tieFleet2).map (fun r => r.2.2) = some tieFleet2.owner := by
  refine ⟨?_, by decide, ?_⟩ <;>
    norm_num [resolveCombat, adjStrength, profMult, tieFleet1, tieFleet2,
      Fleet.getStrength, shipPower, applyLosses, pyInt]

/-- C3 amended: the recorded winner is the owner of the fleet with strictly
higher proficiency-adjusted strength, and an exact tie is recorded for the
*second* fleet examined (fleet2), not the first; in the 100-vs-50 scenario
the strength-100 fleet is recorded as winner. -/
theorem combat_winner_by_adjusted_strength :
    (∀ f1 f2 : Fleet, adjStrength f1 + adjStrength f2 ≠ 0 →
      (resolveCombat f1 f2).map (fun r => r.2.2) =
        some (if adjStrength f2 < adjStrength f1 then f1.owner else f2.owner)) ∧
    (adjStrength warFleet100 = 100 ∧ adjStrength warFleet50 = 50 ∧
      (resolveCombat warFleet100 warFleet50).map (fun r => r.2.2) =
        some warFleet100.owner) := by
  constructor
  · intro f1 f2 h
    simp only [resolveCombat]
    rw [if_neg h]
    simp [gt_iff_lt]
  · refine ⟨?_, ?_, ?_⟩ <;>
      norm_num [resolveCombat, adjStrength, profMult, warFleet100, warFleet50,
        Fleet.getStrength, shipPower, applyLosses, pyInt]

/-- Witness for `combat_winner_by_adjusted_strength` at the concrete tie
input: the hypothesis holds and the winner is the second fleet's owner. -/
theorem combat_winner_by_adjusted_strength_witness :
    adjStrength tieFleet1 + adjStrength tieFleet2 ≠ 0 ∧
    (resolveCombat tieFleet1 tieFleet2).map (fun r => r.2.2) =
      some (if adjStrength tieFleet2 < adjStrength tieFleet1 then tieFleet1.owner
        else tieFleet2.owner) :=
  have h : adjStrength tieFleet1 + adjStrength tieFleet2 ≠ 0 := by
    norm_num [adjStrength, profMult, tieFleet1, tieFleet2, Fleet.getStrength, shipPower]
  ⟨h, combat_winner_by_adjusted_strength.1 tieFleet1 tieFleet2 h⟩

/-! ## C5 — missing-entity commands -/

/-- C5 counterexample: a `build` command whose faction id is missing raises
`KeyError` inside `_execute_build`; `_execute_commands` catches it and
*appends a `command_failed` event*, so the execution is not the silent
(event-free) no-op the claim describes. -/
theorem missing_entity_build_emits_command_failed :
    missingBuildState.events = [] ∧
    (runCommandCaught missingBuildState "ghost"
        (fun g => executeBuild g "ghost" "p1" BuildingType.energyPlant)).events =
      [⟨2, "command_failed", some "ghost"⟩] := by
  refine ⟨rfl, by decide⟩

/-- C5 amended: a non-colonize command that references a missing entity
never raises to the caller of `process_turn`, but the execution is not
uniformly the silent, event-free no-op of the claim:
1. a `build` whose faction id or planet id is absent raises `KeyError`
   before mutating anything, so planets, factions and fleets are unchanged
   and the catch-all of `_execute_commands` appends a `command_failed`
   event;
2. a `move` whose fleet id is absent is detected with `.get()` and is a
   complete no-op — state and log unchanged;
3. a `move` whose destination id is absent mutates the fleet (destination
   written, travel progress reset) *before* the `KeyError`, and a
   `command_failed` event is appended — the mutation is not rolled back;
4. a `diplomacy` status change whose target faction id is absent mutates
   the initiator's diplomacy entry *before* the `KeyError` (shown here for
   the non-betrayal case), and a `command_failed` event is appended. -/
theorem missing_entity_command_semantics :
    (∀ (gs : GameState) (factionId planetId : Id) (building : BuildingType),
      alookup gs.factions factionId = none ∨ alookup gs.planets planetId = none →
      (runCommandCaught gs factionId
          (fun g => executeBuild g factionId planetId building)).planets = gs.planets ∧
      (runCommandCaught gs factionId
          (fun g => executeBuild g factionId planetId building)).factions = gs.factions ∧
      (runCommandCaught gs factionId
          (fun g => executeBuild g factionId planetId building)).fleets = gs.fleets ∧
      (runCommandCaught gs factionId
          (fun g => executeBuild g factionId planetId building)).events =
        gs.events ++ [⟨gs.turn, "command_failed", some factionId⟩]) ∧
    (∀ (gs : GameState) (factionId fleetId destination : Id) (faction : Faction),
      alookup gs.factions factionId = some faction →
      alookup gs.fleets fleetId = none →
      runCommandCaught gs factionId
        (fun g => executeMove g factionId fleetId destination) = gs) ∧
    (∀ (gs : GameState) (factionId fleetId destination : Id)
        (faction : Faction) (fleet : Fleet),
      alookup gs.factions factionId = some faction →
      alookup gs.fleets fleetId = some fleet →
      fleet.owner = faction.id →
      alookup gs.planets destination = none →
      (runCommandCaught gs factionId
          (fun g => executeMove g factionId fleetId destination)).fleets =
        aset gs.fleets fleetId
          { fleet with destination := some destination, travelProgress := 0 } ∧
      (runCommandCaught gs factionId
          (fun g => executeMove g factionId fleetId destination)).events =
        gs.events ++ [⟨gs.turn, "command_failed", some factionId⟩]) ∧
    (∀ (gs : GameState) (factionId targetId : Id) (newStatus : DiplomacyStatus)
        (faction : Faction),
      alookup gs.factions factionId = some faction →
      alookup gs.factions targetId = none →
      ¬((alookup faction.diplomacy targetId).getD DiplomacyStatus.neutral =
          DiplomacyStatus.allied ∧
        (newStatus = DiplomacyStatus.hostile ∨ newStatus = DiplomacyStatus.war)) →
      alookup (runCommandCaught gs factionId
          (fun g => executeDiplomacy g factionId targetId newStatus)).factions
          factionId =
        some { faction with diplomacy := aset faction.diplomacy targetId newStatus } ∧
      (runCommandCaught gs factionId
          (fun g => executeDiplomacy g factionId targetId newStatus)).events =
        gs.events ++ [⟨gs.turn, "command_failed", some factionId⟩]) := by
  refine ⟨?_, ?_, ?_, ?_⟩
  · intro gs factionId planetId building h
    rcases h with h | h
    · simp [runCommandCaught, executeBuild, h, GameState.addEvent]
    · cases hf : alookup gs.factions factionId with
      | none => simp [runCommandCaught, executeBuild, hf, GameState.addEvent]
      | some faction =>
        simp [runCommandCaught, executeBuild, hf, h, GameState.addEvent]
  · intro gs factionId fleetId destination faction hfac hfl
    simp [runCommandCaught, executeMove, hfac, hfl]
  · intro gs factionId fleetId destination faction fleet hfac hfl hown hdest
    have hmut : executeMove gs factionId fleetId destination =
        ⟨{ gs with fleets := aset gs.fleets fleetId { fleet with destination := some destination, travelProgress := 0 } }, some "KeyError: destination planet"⟩ := by
      simp [executeMove, hfac, hfl, hown, hdest]
    refine ⟨?_, ?_⟩ <;> simp [runCommandCaught, hmut, GameState.addEvent]
  · intro gs factionId targetId newStatus faction hfac htgt hnb
    have htne : targetId ≠ factionId := by
      intro h
      rw [h, hfac] at htgt
      exact Option.noConfusion htgt
    have hstep : executeDiplomacy gs factionId targetId newStatus =
        ⟨{ gs with factions := aset (aset gs.factions factionId faction) factionId { faction with diplomacy := aset faction.diplomacy targetId newStatus } }, some "KeyError: target faction"⟩ := by
      simp only [executeDiplomacy, hfac]
      rw [if_neg hnb, if_neg hnb]
      have h3 : alookup (aset (aset gs.factions factionId faction) factionId
          { faction with diplomacy := aset faction.diplomacy targetId newStatus })
          targetId = none := by
        rw [alookup_aset_ne _ _ _ _ htne, alookup_aset_ne _ _ _ _ htne, htgt]
      rw [h3]
    refine ⟨?_, ?_⟩ <;>
      simp [runCommandCaught, hstep, GameState.addEvent, alookup_aset_self]

/-- Witness for `missing_entity_command_semantics`: the build conjunct at a
state missing the faction id, and the diplomacy conjunct at a state missing
the target faction — the mutation persists and `command_failed` is
logged. -/
theorem missing_entity_command_semantics_witness :
    ((alookup missingBuildState.factions "ghost" = none ∨
        alookup missingBuildState.planets "p9" = none) ∧
      (runCommandCaught missingBuildState "ghost"
          (fun g => executeBuild g "ghost" "p9" BuildingType.shipyard)).events =
        missingBuildState.events ++
          [⟨missingBuildState.turn, "command_failed", some "ghost"⟩]) ∧
    (alookup diploMissState.factions "ghost" = none ∧
      alookup (runCommandCaught diploMissState "f1"
          (fun g => executeDiplomacy g "f1" "ghost" DiplomacyStatus.friendly)).factions
          "f1" =
        some { diploFaction with
          diplomacy := aset diploFaction.diplomacy "ghost" DiplomacyStatus.friendly } ∧
      (runCommandCaught diploMissState "f1"
          (fun g => executeDiplomacy g "f1" "ghost" DiplomacyStatus.friendly)).events =
        diploMissState.events ++ [⟨diploMissState.turn, "command_failed", some "f1"⟩]) :=
  ⟨⟨Or.inl (by decide),
    (missing_entity_command_semantics.1 missingBuildState "ghost" "p9"
      BuildingType.shipyard (Or.inl (by decide))).2.2.2⟩,
   ⟨by decide,
    (missing_entity_command_semantics.2.2.2 diploMissState "f1" "ghost"
      DiplomacyStatus.friendly diploFaction (by decide) (by decide) (by decide)).1,
    (missing_entity_command_semantics.2.2.2 diploMissState "f1" "ghost"
      DiplomacyStatus.friendly diploFaction (by decide) (by decide) (by decide)).2⟩⟩

/-! ## C10 — non-atomic move command -/

/-- C10: a move command with a valid owned fleet but a destination id that is
no planet first writes the destination and resets travel progress, then the
event construction raises `KeyError`, which `_execute_commands` converts to
a `command_failed` event — the fleet mutation is not rolled back. -/
theorem move_missing_destination_not_atomic
    (gs : GameState) (factionId fleetId destination : Id)
    (faction : Faction) (fleet : Fleet)
    (hfac : alookup gs.factions factionId = some faction)
    (hfl : alookup gs.fleets fleetId = some fleet)
    (hown : fleet.owner = faction.id)
    (hdest : alookup gs.planets destination = none) :
    alookup (runCommandCaught gs factionId
        (fun g => executeMove g factionId fleetId destination)).fleets fleetId =
      some { fleet with destination := some destination, travelProgress := 0 } ∧
    (runCommandCaught gs factionId
        (fun g => executeMove g factionId fleetId destination)).events =
      gs.events ++ [⟨gs.turn, "command_failed", some factionId⟩] := by
  have hmut : executeMove gs factionId fleetId destination =
      ⟨{ gs with fleets := aset gs.fleets fleetId { fleet with destination := some destination, travelProgress := 0 } }, some "KeyError: destination planet"⟩ := by
    simp [executeMove, hfac, hfl, hown, hdest]
  refine ⟨?_, ?_⟩ <;>
    simp [runCommandCaught, hmut, GameState.addEvent, alookup_aset_self]

/-- Witness for `move_missing_destination_not_atomic`: fleet `fl` of faction
`A` ordered to the nonexistent planet `"nowhere"`. -/
theorem move_missing_destination_not_atomic_witness :
    alookup moveState.planets "nowhere" = none ∧
    alookup (runCommandCaught moveState "A"
        (fun g => executeMove g "A" "fl" "nowhere")).fleets "fl" =
      some { id := "fl", owner := "A", ships := [(.scout, 1)], position := "p0",
             destination := some "nowhere", travelProgress := 0 } :=
  ⟨by decide,
    (move_missing_destination_not_atomic moveState "A" "fl" "nowhere"
      { id := "A", fleets := ["fl"] }
      { id := "fl", owner := "A", ships := [(.scout, 1)], position := "p0" }
      (by decide) (by decide) (by decide) (by decide)).1⟩

/-! ## C6 — siege-point lifecycle -/

theorem alookup_map_values {α β : Type} (l : List (Id × α)) (f : α → β) (k : Id) :
    alookup (l.map (fun kv => (kv.1, f kv.2))) k = (alookup l k).map f := by
  induction l with
  | nil => simp [alookup]
  | cons x xs ih =>
    by_cases hx : x.1 = k
    · simp [alookup, List.find?, hx]
    · simpa [alookup, List.find?, hx] using ih

theorem alookup_mem {α : Type} {l : List (Id × α)} {k : Id} {v : α}
    (h : alookup l k = some v) : (k, v) ∈ l := by
  unfold alookup at h
  cases hf : l.find? (fun p => p.1 = k) with
  | none => rw [hf] at h; simp at h
  | some p =>
    rw [hf] at h
    have hp := List.find?_some hf
    have hpm := List.mem_of_find?_eq_some hf
    simp only [Option.map_some', Option.some.injEq] at h
    simp only [decide_eq_true_eq] at hp
    have : p = (k, v) := by
      cases p
      simp only at hp h
      simp [hp, h]
    rwa [this] at hpm

theorem alookup_eq_none_iff {α : Type} (l : List (Id × α)) (k : Id) :
    alookup l k = none ↔ ∀ e ∈ l, e.1 ≠ k := by
  unfold alookup
  simp [List.find?_eq_none]

theorem alookup_filter_pos {l : List (Id × ℤ)} (h : (l.map Prod.fst).Nodup) (k : Id) :
    alookup (l.filter (fun kv => 0 < kv.2)) k =
      (alookup l k).bind (fun v => if 0 < v then some v else none) := by
  induction l with
  | nil => simp [alookup]
  | cons x xs ih =>
    simp only [List.map_cons, List.nodup_cons] at h
    by_cases hx : x.1 = k
    · have hnone : alookup (xs.filter (fun kv => 0 < kv.2)) k = none := by
        rw [alookup_eq_none_iff]
        intro e he
        have hmem := List.mem_of_mem_filter he
        intro hk
        exact h.1 (by
          rw [← hx] at hk
          exact (List.mem_map.mpr ⟨e, hmem, hk ▸ rfl⟩))
      rw [List.filter_cons]
      by_cases hpos : (0 : ℤ) < x.2
      · rw [if_pos (by simpa using hpos)]
        simp [alookup, List.find?, hx, hpos]
      · rw [if_neg (by simpa using hpos)]
        rw [hnone]
        simp [alookup, List.find?, hx, hpos]
    · rw [List.filter_cons]
      by_cases hpos : (0 : ℤ) < x.2
      · rw [if_pos (by simpa using hpos)]
        rw [show alookup (x :: xs) k = alookup xs k by simp [alookup, List.find?, hx]]
        rw [show alookup (x :: xs.filter (fun kv => 0 < kv.2)) k =
            alookup (xs.filter (fun kv => 0 < kv.2)) k by
          simp [alookup, List.find?, hx]]
        exact ih h.2
      · rw [if_neg (by simpa using hpos)]
        rw [show alookup (x :: xs) k = alookup xs k by simp [alookup, List.find?, hx]]
        exact ih h.2

theorem siegeDecay_alookup_none {l : List (Id × List (Id × ℤ))} {k : Id}
    (h : alookup l k = none) : alookup (siegeDecay l) k = none := by
  induction l with
  | nil => simp [siegeDecay, alookup]
  | cons e rest ih =>
    rw [alookup_eq_none_iff] at h
    have hkey : e.1 ≠ k := h e (List.mem_cons_self _ _)
    have hrest : alookup rest k = none :=
      (alookup_eq_none_iff rest k).mpr (fun x hx => h x (List.mem_cons_of_mem _ hx))
    unfold siegeDecay
    cases hdec : siegeDecayEntry e.2 with
    | none => simpa [List.filterMap_cons, hdec, siegeDecay] using ih hrest
    | some m =>
      simpa [List.filterMap_cons, hdec, alookup, List.find?, hkey, siegeDecay]
        using ih hrest

/-- The pointwise effect of one decay step on a single entry map. -/
theorem siegeDecayEntry_points (mp : List (Id × ℤ))
    (h : (mp.map Prod.fst).Nodup) (aid : Id) :
    (alookup ((siegeDecayEntry mp).getD []) aid).getD 0 =
      max 0 ((alookup mp aid).getD 0 - 1) := by
  have hl : alookup (mp.map (fun kv => (kv.1, max 0 (kv.2 - 1)))) aid =
      (alookup mp aid).map (fun v => max 0 (v - 1)) :=
    alookup_map_values mp (fun v => max 0 (v - 1)) aid
  unfold siegeDecayEntry
  by_cases hall : (mp.map (fun kv => (kv.1, max 0 (kv.2 - 1)))).all (fun kv => kv.2 = 0)
  · rw [if_pos hall]
    cases halk : alookup mp aid with
    | none => simp [alookup]
    | some v =>
      rw [halk] at hl
      have hmem := alookup_mem hl
      have hz : max 0 (v - 1) = 0 := by
        have := (List.all_eq_true.mp hall) _ hmem
        simpa using this
      simp [alookup, hz]
  · rw [if_neg hall]
    by_cases hch : mp.map (fun kv => (kv.1, max 0 (kv.2 - 1))) ≠ mp
    · rw [if_pos hch]
      have hkeys : ((mp.map (fun kv => (kv.1, max 0 (kv.2 - 1)))).map Prod.fst).Nodup := by
        simpa [Function.comp] using h
      rw [Option.getD_some, alookup_filter_pos hkeys, hl]
      cases halk : alookup mp aid with
      | none => simp
      | some v =>
        by_cases hpos : (0 : ℤ) < max 0 (v - 1)
        · simp [hpos]
        · have : max 0 (v - 1) = 0 := by omega
          simp [hpos, this]
    · rw [if_neg hch]
      push_neg at hch
      cases halk : alookup mp aid with
      | none => simp [halk]
      | some v =>
        rw [halk] at hl
        rw [hch] at hl
        rw [halk] at hl
        have : v = max 0 (v - 1) := by
          have := hl
          simp only [Option.map_some', Option.some.injEq] at this
          omega
        simp [halk, ← this]

theorem siegePointsOf_cons_of_eq {e : Id × List (Id × ℤ)}
    {rest : List (Id × List (Id × ℤ))} {pid aid : Id} (hpe : e.1 = pid) :
    siegePointsOf (e :: rest) pid aid = (alookup e.2 aid).getD 0 := by
  simp [siegePointsOf, alookup, List.find?, hpe]

theorem siegePointsOf_cons_of_ne {e : Id × List (Id × ℤ)}
    {rest : List (Id × List (Id × ℤ))} {pid aid : Id} (hpe : ¬e.1 = pid) :
    siegePointsOf (e :: rest) pid aid = siegePointsOf rest pid aid := by
  simp [siegePointsOf, alookup, List.find?, hpe]

theorem alookup_head_none_of_nodup {β : Type} {e : Id × β} {rest : List (Id × β)}
    {pid : Id} (hpe : e.1 = pid) (h1 : e.1 ∉ rest.map Prod.fst) :
    alookup rest pid = none := by
  rw [alookup_eq_none_iff]
  intro x hx hk
  exact h1 (by
    rw [← hpe] at hk
    exact List.mem_map.mpr ⟨x, hx, hk ▸ rfl⟩)

/-- The decay loop at the end of `process_turn` lowers every stored
`(planet, attacker)` siege count by exactly 1, floored at 0 (a pair without
an entry reads as 0 on both sides). -/
theorem siegeDecay_points (siege : List (Id × List (Id × ℤ)))
    (houter : (siege.map Prod.fst).Nodup)
    (hinner : ∀ e ∈ siege, (e.2.map Prod.fst).Nodup) (pid aid : Id) :
    siegePointsOf (siegeDecay siege) pid aid =
      max 0 (siegePointsOf siege pid aid - 1) := by
  induction siege with
  | nil => simp [siegeDecay, siegePointsOf, alookup]
  | cons e rest ih =>
    simp only [List.map_cons, List.nodup_cons] at houter
    have hinner_head := hinner e (List.mem_cons_self _ _)
    have hinner_rest : ∀ x ∈ rest, (x.2.map Prod.fst).Nodup :=
      fun x hx => hinner x (List.mem_cons_of_mem _ hx)
    by_cases hpe : e.1 = pid
    · have hnone := alookup_head_none_of_nodup hpe houter.1
      have hpoints := siegeDecayEntry_points e.2 hinner_head aid
      rw [siegePointsOf_cons_of_eq hpe]
      cases hdec : siegeDecayEntry e.2 with
      | none =>
        rw [hdec, Option.getD_none] at hpoints
        have hL : siegePointsOf (siegeDecay (e :: rest)) pid aid = 0 := by
          unfold siegePointsOf
          rw [show siegeDecay (e :: rest) = siegeDecay rest by
            simp [siegeDecay, List.filterMap_cons, hdec]]
          rw [siegeDecay_alookup_none hnone]
          simp [alookup]
        rw [hL]
        simpa [alookup] using hpoints
      | some m =>
        rw [hdec, Option.getD_some] at hpoints
        have hL : siegePointsOf (siegeDecay (e :: rest)) pid aid =
            (alookup m aid).getD 0 := by
          unfold siegePointsOf
          rw [show siegeDecay (e :: rest) = (e.1, m) :: siegeDecay rest by
            simp [siegeDecay, List.filterMap_cons, hdec]]
          simp [alookup, List.find?, hpe]
        rw [hL]
        exact hpoints
    · rw [siegePointsOf_cons_of_ne hpe]
      have hdecskip : siegePointsOf (siegeDecay (e :: rest)) pid aid =
          siegePointsOf (siegeDecay rest) pid aid := by
        cases hdec : siegeDecayEntry e.2 with
        | none => simp [siegeDecay, List.filterMap_cons, hdec]
        | some m =>
          rw [show siegeDecay (e :: rest) = (e.1, m) :: siegeDecay rest by
            simp [siegeDecay, List.filterMap_cons, hdec]]
          exact siegePointsOf_cons_of_ne hpe
      rw [hdecskip]
      exact ih houter.2 hinner_rest

/-- A planet's siege entry is removed by the decay step once every one of
its counts is ≤ 1 (i.e. once every decremented count reaches 0). -/
theorem siegeDecay_removes_entry (siege : List (Id × List (Id × ℤ)))
    (houter : (siege.map Prod.fst).Nodup) (pid : Id)
    (hsmall : ∀ kv ∈ (alookup siege pid).getD [], kv.2 ≤ 1) :
    alookup (siegeDecay siege) pid = none := by
  induction siege with
  | nil => simp [siegeDecay, alookup]
  | cons e rest ih =>
    simp only [List.map_cons, List.nodup_cons] at houter
    by_cases hpe : e.1 = pid
    · have hsmall' : ∀ kv ∈ e.2, kv.2 ≤ 1 := by
        intro kv hkv
        apply hsmall
        simp [alookup, List.find?, hpe]
        exact hkv
      have hdec : siegeDecayEntry e.2 = none := by
        unfold siegeDecayEntry
        rw [if_pos]
        rw [List.all_eq_true]
        intro kv hkv
        rcases List.mem_map.mp hkv with ⟨x, hx, hxe⟩
        have hx1 := hsmall' x hx
        subst hxe
        simpa using (by omega : max 0 (x.2 - 1) = 0)
      rw [show siegeDecay (e :: rest) = siegeDecay rest by
        simp [siegeDecay, List.filterMap_cons, hdec]]
      exact siegeDecay_alookup_none (alookup_head_none_of_nodup hpe houter.1)
    · have hsmall' : ∀ kv ∈ (alookup rest pid).getD [], kv.2 ≤ 1 := by
        intro kv hkv
        apply hsmall
        simpa [alookup, List.find?, hpe] using hkv
      cases hdec : siegeDecayEntry e.2 with
      | none =>
        rw [show siegeDecay (e :: rest) = siegeDecay rest by
          simp [siegeDecay, List.filterMap_cons, hdec]]
        exact ih houter.2 hsmall'
      | some m =>
        rw [show siegeDecay (e :: rest) = (e.1, m) :: siegeDecay rest by
          simp [siegeDecay, List.filterMap_cons, hdec]]
        rw [show alookup ((e.1, m) :: siegeDecay rest) pid =
            alookup (siegeDecay rest) pid by simp [alookup, List.find?, hpe]]
        exact ih houter.2 hsmall'

/-- C6: the siege table behaves as claimed.  With well-formed (duplicate-free,
as Python dicts guarantee) keys:
1. the end-of-turn decay loop lowers every stored `(planet, attacker)` count
   by exactly 1, floored at 0;
2. counts after decay are never negative;
3. a failed capture attempt raises the attacker's count by exactly 1
   (no upper cap — the formula holds for every starting value);
4. a planet's whole siege entry disappears in the decay step once all its
   decremented counts reach 0 (that is, when every stored count is ≤ 1);
5. a successful capture removes the planet's siege entry entirely. -/
theorem siege_points_lifecycle (siege : List (Id × List (Id × ℤ)))
    (houter : (siege.map Prod.fst).Nodup)
    (hinner : ∀ e ∈ siege, (e.2.map Prod.fst).Nodup) :
    (∀ planetId attackerId,
      siegePointsOf (siegeDecay siege) planetId attackerId =
        max 0 (siegePointsOf siege planetId attackerId - 1)) ∧
    (∀ planetId attackerId,
      0 ≤ siegePointsOf (siegeDecay siege) planetId attackerId) ∧
    (∀ planetId attackerId,
      siegePointsOf (siegeAddPoint siege planetId attackerId) planetId attackerId =
        siegePointsOf siege planetId attackerId + 1) ∧
    (∀ planetId, (∀ kv ∈ (alookup siege planetId).getD [], kv.2 ≤ 1) →
      alookup (siegeDecay siege) planetId = none) ∧
    (∀ planetId, alookup (siegeClear siege planetId) planetId = none) := by
  refine ⟨fun pid aid => siegeDecay_points siege houter hinner pid aid,
    fun pid aid => ?_, fun pid aid => ?_,
    fun pid h => siegeDecay_removes_entry siege houter pid h, fun pid => ?_⟩
  · rw [siegeDecay_points siege houter hinner pid aid]
    exact le_max_left _ _
  · unfold siegeAddPoint siegePointsOf
    rw [alookup_aset_self, Option.getD_some, alookup_aset_self, Option.getD_some]
  · rw [alookup_eq_none_iff]
    intro x hx
    have hmem := List.of_mem_filter hx
    simpa using hmem

/-- Witness for `siege_points_lifecycle` on `siegeExample`. -/
theorem siege_points_lifecycle_witness :
    siegePointsOf (siegeDecay siegeExample) "p1" "A" =
      max 0 (siegePointsOf siegeExample "p1" "A" - 1) ∧
    0 ≤ siegePointsOf (siegeDecay siegeExample) "p1" "B" ∧
    siegePointsOf (siegeAddPoint siegeExample "p1" "A") "p1" "A" =
      siegePointsOf siegeExample "p1" "A" + 1 ∧
    alookup (siegeDecay siegeExample) "p2" = none ∧
    alookup (siegeClear siegeExample "p1") "p1" = none := by
  have h := siege_points_lifecycle siegeExample (by decide) (by decide)
  exact ⟨h.1 "p1" "A", h.2.1 "p1" "B", h.2.2.1 "p1" "A",
    h.2.2.2.1 "p2" (by decide), h.2.2.2.2 "p1"⟩

/-! ## C7 — capture probability reduces to the raw formula -/

theorem captureProb_eq_formula (a d : ℚ) (ha : 0 ≤ a) (hd : 0 ≤ d) :
    captureProb a d = pow11 ((a : ℝ)) / (pow11 ((a : ℝ)) + pow11 ((d : ℝ))) := by
  unfold captureProb
  rw [max_eq_right (by exact_mod_cast ha), max_eq_right (by exact_mod_cast hd)]
  by_cases hsum : 0 < pow11 ((a : ℝ)) + pow11 ((d : ℝ))
  · rw [if_pos hsum]
  · rw [if_neg hsum]
    have h1 : (0 : ℝ) ≤ pow11 ((a : ℝ)) := Real.rpow_nonneg (by exact_mod_cast ha) _
    have h2 : (0 : ℝ) ≤ pow11 ((d : ℝ)) := Real.rpow_nonneg (by exact_mod_cast hd) _
    have hz : pow11 ((a : ℝ)) + pow11 ((d : ℝ)) = 0 :=
      le_antisymm (not_lt.mp hsum) (add_nonneg h1 h2)
    rw [hz, div_zero]

theorem captureProb_zero_zero : captureProb 0 0 = 0 := by
  unfold captureProb pow11
  simp only [Rat.cast_zero, max_self]
  rw [Real.zero_rpow (by norm_num : ((11 : ℝ)/10) ≠ 0)]
  norm_num

theorem captureProb_pos_zero (q : ℚ) (h : 0 < q) : captureProb q 0 = 1 := by
  unfold captureProb pow11
  simp only [Rat.cast_zero, max_self]
  rw [max_eq_right (by exact_mod_cast h.le)]
  rw [Real.zero_rpow (by norm_num : ((11 : ℝ)/10) ≠ 0)]
  have hq : (0 : ℝ) < ((q : ℝ)) ^ ((11 : ℝ)/10) :=
    Real.rpow_pos_of_pos (by exact_mod_cast h) _
  rw [if_pos (by linarith)]
  rw [add_zero, div_self (ne_of_gt hq)]

/-- C7: when the planet has no defense station, neither side holds the laser
or FTL technologies, every attacker fleet stationed at the planet has
proficiency 0, no adjacent planet is attacker-owned, the attacker has no
siege points here and beachhead protection is inactive, the effective powers
of `_calc_capture_effective_power` are exactly the raw stationed strengths,
and the success probability is `a^1.1 / (a^1.1 + d^1.1)` over them — `0`
when both raw strengths are `0`. -/
theorem capture_probability_reduces_to_raw
    (gs : GameState) (attacker defender : Faction) (planet : Planet)
    (hstation : planet.buildings.contains BuildingType.defenseStation = false)
    (hatk1 : "tech_laser" ∉ attacker.technologies)
    (hatk2 : "tech_ftl" ∉ attacker.technologies)
    (hdef1 : "tech_laser" ∉ defender.technologies)
    (hdef2 : "tech_ftl" ∉ defender.technologies)
    (hprof : ∀ p ∈ gs.fleets, p.2.owner = attacker.id → p.2.position = planet.id →
      p.2.proficiency = 0)
    (hadj : ∀ n ∈ getConnectedPlanets gs planet.id, n ∉ attacker.planets)
    (hsiege : siegePointsOf gs.siege planet.id attacker.id = 0)
    (hbeach : beachheadMultOf gs planet = 1) :
    calcCaptureEffectivePower gs attacker defender planet (beachheadMultOf gs planet) =
      (rawStrengthAt gs attacker.id planet.id, rawStrengthAt gs defender.id planet.id) ∧
    (∀ a d : ℚ, 0 ≤ a → 0 ≤ d →
      captureProb a d = pow11 ((a : ℝ)) / (pow11 ((a : ℝ)) + pow11 ((d : ℝ)))) ∧
    captureProb 0 0 = 0 := by
  refine ⟨?_, fun a d ha hd => captureProb_eq_formula a d ha hd, captureProb_zero_zero⟩
  have hsum : ((gs.fleets.filter
      (fun p => p.2.owner = attacker.id ∧ p.2.position = planet.id)).map
      (fun p => p.2.proficiency)).sum = 0 := by
    apply List.sum_eq_zero
    intro x hx
    rcases List.mem_map.mp hx with ⟨p, hp, rfl⟩
    have hmem := List.mem_of_mem_filter hp
    have hcond := List.of_mem_filter hp
    simp only [decide_eq_true_eq] at hcond
    exact hprof p hmem hcond.1 hcond.2
  have hfil : (getConnectedPlanets gs planet.id).filter
      (fun n => n ∈ attacker.planets) = [] :=
    List.filter_eq_nil_iff.mpr (fun a ha => by simpa using hadj a ha)
  simp only [calcCaptureEffectivePower, hsum, hfil, hstation, hsiege, hbeach]
  rw [if_neg hatk1, if_neg hatk2, if_neg hdef1, if_neg hdef2]
  norm_num [profMult]

/-- Witness for `capture_probability_reduces_to_raw` at `probeState`. -/
theorem capture_probability_reduces_to_raw_witness :
    (siegePointsOf probeState.siege probePlanet.id probeAttacker.id = 0 ∧
      beachheadMultOf probeState probePlanet = 1) ∧
    calcCaptureEffectivePower probeState probeAttacker probeDefender probePlanet
        (beachheadMultOf probeState probePlanet) =
      (rawStrengthAt probeState probeAttacker.id probePlanet.id,
        rawStrengthAt probeState probeDefender.id probePlanet.id) :=
  ⟨⟨by decide, by norm_num [beachheadMultOf, probeState, probePlanet]⟩,
    (capture_probability_reduces_to_raw probeState probeAttacker probeDefender
      probePlanet (by decide) (by decide) (by decide) (by decide) (by decide)
      (by decide) (by decide) (by decide)
      (by norm_num [beachheadMultOf, probeState, probePlanet])).1⟩

/-! ## C9 — event-type vocabulary -/

/-- C9 counterexample: the truce-refusal path emits the tag `truce_active`
and the desperate-capture path emits `planet_captured`; neither tag is in
the claimed vocabulary (which has `planet_conquered` but not
`planet_captured`). -/
theorem capture_emits_off_vocabulary_tags :
    ((attemptPlanetCaptureCore truceCaptureState "A" "D" "p" {} false).1.events.map
        (·.eventType) = ["truce_active"] ∧
      "truce_active" ∉ eventTypeVocabulary) ∧
    ((attemptPlanetCaptureCore desperateCaptureState "A" "D" "p" {} false).1.events.map
        (·.eventType) = ["planet_captured"] ∧
      "planet_captured" ∉ eventTypeVocabulary) := by
  refine ⟨⟨by decide, by decide⟩, ⟨by decide, by decide⟩⟩

/-- C9 amended: every event appended to the log during `process_turn`
carries a tag from the claimed vocabulary *extended with* `planet_captured`
(the desperate-capture path) and `truce_active` (the truce-refusal path).
Part 1 proves this branch-by-branch for the capture engine — the only
emitter with tags outside the original vocabulary; part 2 checks every
reachable `add_event` tag of the whole turn pipeline
(`processTurnEmittedTags`, transcribed call site by call site from the
source) against the extended vocabulary. -/
theorem capture_event_tags_in_extended_vocabulary :
    (∀ (gs : GameState) (attackerId defenderId planetId : Id) (r : CaptureRolls)
        (succeed : Bool),
      ∀ e ∈ (attemptPlanetCaptureCore gs attackerId defenderId planetId r
          succeed).1.events,
        e ∈ gs.events ∨
          e.eventType ∈ eventTypeVocabulary ++ ["planet_captured", "truce_active"]) ∧
    (∀ t ∈ processTurnEmittedTags,
      t ∈ eventTypeVocabulary ++ ["planet_captured", "truce_active"]) := by
  constructor
  · intro gs attackerId defenderId planetId r succeed e he
    unfold attemptPlanetCaptureCore at he
    split at he
    case _ =>
      repeat' split at he
      all_goals simp only [GameState.addEvent, List.mem_append,
        List.mem_singleton] at he
      all_goals
        first
          | exact Or.inl he
          | exact he.elim Or.inl
              (fun h => Or.inr (by subst h; simp [eventTypeVocabulary]))
    case _ => exact Or.inl he
  · decide

/-- Witness for `capture_event_tags_in_extended_vocabulary`: the truce event
of the concrete truce-active state is covered by the extended vocabulary,
as is a representative pipeline tag. -/
theorem capture_event_tags_in_extended_vocabulary_witness :
    ((⟨1, "truce_active", some "A"⟩ : GameEvent) ∈
      (attemptPlanetCaptureCore truceCaptureState "A" "D" "p" {} false).1.events ∧
    ((⟨1, "truce_active", some "A"⟩ : GameEvent) ∈ truceCaptureState.events ∨
      (⟨1, "truce_active", some "A"⟩ : GameEvent).eventType ∈
        eventTypeVocabulary ++ ["planet_captured", "truce_active"])) ∧
    ("turn_end" ∈ processTurnEmittedTags ∧
      "turn_end" ∈ eventTypeVocabulary ++ ["planet_captured", "truce_active"]) :=
  ⟨⟨by decide,
    capture_event_tags_in_extended_vocabulary.1 truceCaptureState "A" "D" "p" {}
      false ⟨1, "truce_active", some "A"⟩ (by decide)⟩,
   ⟨by decide,
    capture_event_tags_in_extended_vocabulary.2 "turn_end" (by decide)⟩⟩

/-! ## C4 — captured-planet population -/

/-- C4 counterexample: a successful capture of a planet with population 21
sets the population to `max(10, int(21 × 0.7)) = max(10, int(14.7)) = 14`
(Python `int` truncates), while the claimed formula
`max(10, round(21 × 0.7)) = 15` rounds to the nearest integer — the two
disagree. -/
theorem capture_population_truncates_not_rounds :
    (alookup (attemptPlanetCapture truncState "A" "D" "p1" truncRolls).1.planets
      "p1").map (·.population) = some 14 ∧
    ¬((14 : ℤ) = max 10 (round ((21 : ℚ) * (7/10)))) := by
  constructor
  · have hpow : capturePowersAt truncState "A" "D" "p1" = (12, 0) := by
      simp only [capturePowersAt, truncState, truncAttacker, truncDefender,
        truncPlanet, calcCaptureEffectivePower, rawStrengthAt, alookup,
        List.find?, beachheadMultOf, profMult, siegePointsOf, getConnectedPlanets,
        Fleet.getStrength, shipPower, List.filter, List.map, List.foldl,
        String.reduceEq, reduceIte, decide_True, decide_False, Option.getD,
        Option.map]
      norm_num
    have hdec : captureDecision 12 0 ((1 : ℚ)/2) = true := by
      unfold captureDecision
      rw [captureProb_pos_zero 12 (by norm_num)]
      exact decide_eq_true (by norm_num)
    unfold attemptPlanetCapture
    simp only [hpow, truncRolls]
    rw [hdec]
    simp only [attemptPlanetCaptureCore, truncState, truncAttacker, truncDefender,
      truncPlanet, truncRolls, GameState.truceActive, GameState.addEvent,
      countFactionShipsOnPlanet, canUseEnergyShield, techBonusOf, aset, alookup,
      siegeClear, aremove, pyInt, List.find?, List.any_cons, List.any_nil,
      List.map, List.filter, String.reduceEq, reduceIte, decide_True,
      decide_False, Option.getD, Option.map]
    norm_num
    simp only [String.reduceEq, reduceIte, List.find?, Option.map, alookup,
      decide_True, decide_False]
    try norm_num
  · norm_num [round_eq]

/-- C4 amended: on every successful probabilistic capture the planet's
population is set to `max(10, int(population × 0.7))`, where `int` truncates
toward zero (the floor, for the non-negative populations of the game) —
not rounding to nearest. -/
theorem capture_population_floor_formula
    (gs : GameState) (attackerId defenderId planetId : Id) (r : CaptureRolls)
    (attacker defender : Faction) (planet : Planet)
    (hA : alookup gs.factions attackerId = some attacker)
    (hD : alookup gs.factions defenderId = some defender)
    (hP : alookup gs.planets planetId = some planet)
    (htruce : gs.truceActive = false)
    (hdesp : ¬(attacker.planets.length = 0 ∧
      gs.desperateThreshold < countFactionShipsOnPlanet gs attackerId planetId))
    (hdefmode : ¬(defender.strategyMode = "defend" ∧ 0 < defender.defenseCharges))
    (hstation1 : ¬(planet.buildings.contains BuildingType.defenseStation ∧
      0 < defender.defenseCharges))
    (hstation2 : ¬(planet.buildings.contains BuildingType.defenseStation ∧
      r.defenseStationRoll < 3/10))
    (htech : ¬(0 < techBonusOf defender ∧ r.techRoll < techBonusOf defender))
    (hshield : canUseEnergyShield gs defender = false) :
    (alookup (attemptPlanetCaptureCore gs attackerId defenderId planetId r true).1.planets
      planetId).map (·.population) =
      some (max 10 (pyInt ((planet.population : ℚ) * (7/10)))) := by
  unfold attemptPlanetCaptureCore
  rw [hA, hD, hP]
  rw [htruce]
  simp only [Bool.false_eq_true, if_false]
  rw [if_neg hdesp, if_neg hdefmode, if_neg hstation1, if_neg hstation2,
    if_neg htech, hshield]
  simp only [Bool.false_eq_true, if_false, if_true, GameState.addEvent]
  simp [alookup_aset_self]

/-- Witness for `capture_population_floor_formula` at the C4 scenario. -/
theorem capture_population_floor_formula_witness :
    canUseEnergyShield truncState truncDefender = false ∧
    (alookup (attemptPlanetCaptureCore truncState "A" "D" "p1" truncRolls true).1.planets
      "p1").map (·.population) =
      some (max 10 (pyInt ((truncPlanet.population : ℚ) * (7/10)))) :=
  ⟨by decide,
    capture_population_floor_formula truncState "A" "D" "p1" truncRolls
      truncAttacker truncDefender truncPlanet (by decide) (by decide) (by decide)
      (by decide) (by decide)
      (by rintro ⟨h, -⟩; exact absurd h (by decide))
      (by rintro ⟨h, -⟩; exact absurd h (by decide))
      (by rintro ⟨h, -⟩; exact absurd h (by decide))
      (by rintro ⟨h, -⟩; exact absurd h (by norm_num [techBonusOf, truncDefender]))
      (by decide)⟩

/-! ## C8 — colonization winner -/

theorem contenderLe_iff (a b : Contender) :
    contenderLe a b = true ↔
      (a.power < b.power ∨
        (a.power = b.power ∧ a.originPopulation ≤ b.originPopulation)) := by
  simp [contenderLe]

theorem contenderLe_trans (a b c : Contender)
    (hab : contenderLe a b = true) (hbc : contenderLe b c = true) :
    contenderLe a c = true := by
  rw [contenderLe_iff] at *
  rcases hab with h | ⟨he, hp⟩ <;> rcases hbc with h2 | ⟨he2, hp2⟩
  · exact Or.inl (h.trans h2)
  · exact Or.inl (he2 ▸ h)
  · exact Or.inl (he ▸ h2)
  · exact Or.inr ⟨he.trans he2, hp.trans hp2⟩

theorem contenderLe_total (a b : Contender) :
    (contenderLe a b || contenderLe b a) = true := by
  simp only [Bool.or_eq_true, contenderLe_iff]
  rcases lt_trichotomy a.power b.power with h | h | h
  · exact Or.inl (Or.inl h)
  · rcases le_total a.originPopulation b.originPopulation with hp | hp
    · exact Or.inl (Or.inr ⟨h, hp⟩)
    · exact Or.inr (Or.inr ⟨h.symm, hp⟩)
  · exact Or.inr (Or.inl h)

/-- C8: the contender selected by `_resolve_colonize_conflicts` (the last
element of the list stably sorted by `(power, origin_population)` ascending)
is a maximum of the contenders under that lexicographic order: every other
contender has strictly lower power, or equal power and no larger origin
population.  In particular, in the A(power=100,pop=50) vs
B(power=150,pop=10) scenario, B wins in either submission order. -/
theorem colonize_winner_lex_maximum :
    (∀ l : List Contender, l ≠ [] →
      ∃ w, colonizeWinner l = some w ∧ w ∈ l ∧
        ∀ c ∈ l, c.power < w.power ∨
          (c.power = w.power ∧ c.originPopulation ≤ w.originPopulation)) ∧
    (colonizeWinner [⟨100, 50, "A", "pa"⟩, ⟨150, 10, "B", "pb"⟩]).map
      (·.factionId) = some "B" ∧
    (colonizeWinner [⟨150, 10, "B", "pb"⟩, ⟨100, 50, "A", "pa"⟩]).map
      (·.factionId) = some "B" := by
  have main : ∀ l : List Contender, l ≠ [] →
      ∃ w, colonizeWinner l = some w ∧ w ∈ l ∧
        ∀ c ∈ l, c.power < w.power ∨
          (c.power = w.power ∧ c.originPopulation ≤ w.originPopulation) := by
    intro l hl
    have hperm : (l.mergeSort contenderLe).Perm l := List.mergeSort_perm l contenderLe
    have hsne : l.mergeSort contenderLe ≠ [] := by
      intro h
      apply hl
      have hlen := hperm.length_eq
      rw [h] at hlen
      exact List.length_eq_zero.mp hlen.symm
    refine ⟨(l.mergeSort contenderLe).getLast hsne, ?_, ?_, ?_⟩
    · rw [colonizeWinner]
      exact List.getLast?_eq_getLast _ hsne
    · exact hperm.subset (List.getLast_mem hsne)
    · intro c hc
      have hcs : c ∈ l.mergeSort contenderLe := hperm.mem_iff.mpr hc
      have hsorted : (l.mergeSort contenderLe).Pairwise
          (fun a b => contenderLe a b = true) :=
        List.sorted_mergeSort contenderLe_trans
          (fun a b => contenderLe_total a b) l
      have hsplit := List.dropLast_append_getLast hsne
      rw [← hsplit] at hcs hsorted
      rcases List.mem_append.mp hcs with hin | hinlast
      · rcases List.pairwise_append.mp hsorted with ⟨-, -, hcross⟩
        exact (contenderLe_iff _ _).mp
          (hcross c hin _ (List.mem_singleton_self _))
      · have hceq := List.mem_singleton.mp hinlast
        rw [hceq]
        exact Or.inr ⟨rfl, le_refl _⟩
  refine ⟨main, ?_, ?_⟩
  · obtain ⟨w, hw, hmem, hmax⟩ :=
      main [⟨100, 50, "A", "pa"⟩, ⟨150, 10, "B", "pb"⟩] (by simp)
    have hB := hmax ⟨150, 10, "B", "pb"⟩ (by simp)
    have hwB : w = ⟨150, 10, "B", "pb"⟩ := by
      rcases List.mem_cons.mp hmem with h | h
      · exfalso
        subst h
        rcases hB with h | ⟨h, -⟩ <;> norm_num at h
      · simpa using h
    rw [hw, hwB]
    rfl
  · obtain ⟨w, hw, hmem, hmax⟩ :=
      main [⟨150, 10, "B", "pb"⟩, ⟨100, 50, "A", "pa"⟩] (by simp)
    have hB := hmax ⟨150, 10, "B", "pb"⟩ (by simp)
    have hwB : w = ⟨150, 10, "B", "pb"⟩ := by
      rcases List.mem_cons.mp hmem with h | h
      · exact h
      · exfalso
        have h' := List.mem_singleton.mp h
        subst h'
        rcases hB with h | ⟨h, -⟩ <;> norm_num at h
    rw [hw, hwB]
    rfl

/-- Witness for `colonize_winner_lex_maximum` at a singleton contender
list. -/
theorem colonize_winner_lex_maximum_witness :
    ([⟨100, 50, "A", "pa"⟩] : List Contender) ≠ [] ∧
    ∃ w, colonizeWinner [(⟨100, 50, "A", "pa"⟩ : Contender)] = some w ∧
      w ∈ [(⟨100, 50, "A", "pa"⟩ : Contender)] ∧
      ∀ c ∈ [(⟨100, 50, "A", "pa"⟩ : Contender)], c.power < w.power ∨
        (c.power = w.power ∧ c.originPopulation ≤ w.originPopulation) :=
  ⟨by simp, colonize_winner_lex_maximum.1 [⟨100, 50, "A", "pa"⟩] (by simp)⟩

end GlaxWar
